import Mathlib

/-!
Verification development for the Noise handshake core (HandshakeState).

The HandshakeState logic is embedded from src/src/protocol/handshakestate.c.
External collaborators that the handshake consumes through narrow interfaces
(DHState, SymmetricState internals, the pattern table, protocol-name
formatting) are not part of the given sources; they are modelled from the
specification and marked as such in their doc comments.

Conventions of the embedding:
- C pointers that may be NULL become `Option`; a NULL data pointer inside a
  buffer is a `data_null` flag so that argument validation can be mirrored.
- Byte strings are `List Nat`.  Secret derived values (hash chains, HKDF
  outputs, DH shared secrets) are terms of the free algebra `SBytes`, so two
  derivations are equal exactly when they were built by the same sequence of
  operations; this mirrors the collision-free intent of the hash/HKDF
  capabilities without fixing a concrete hash function.
- The AEAD byte transformation is external to the core; it is modelled as the
  identity on the kept region plus a MAC tag region, which is irrelevant to
  every property proved here (none mentions ciphertext byte values).
-/

namespace NoiseC

/-- Error codes surfaced by the library (noise/noise.h constants). -/
inductive NoiseError where
  | NONE
  | INVALID_PARAM
  | INVALID_LENGTH
  | INVALID_STATE
  | INVALID_PUBLIC_KEY
  | INVALID_PRIVATE_KEY
  | INVALID_NONCE
  | NOT_APPLICABLE
  | MAC_FAILURE
  | LOCAL_KEY_REQUIRED
  | REMOTE_KEY_REQUIRED
  | PSK_REQUIRED
  | UNKNOWN_ID
  | UNKNOWN_NAME
  | NO_MEMORY
deriving DecidableEq, Repr

/-- Roles of the two parties (NOISE_ROLE_*). -/
inductive Role where
  | INITIATOR
  | RESPONDER
deriving DecidableEq, Repr

/-- The action state variable of a HandshakeState (NOISE_ACTION_*). -/
inductive Action where
  | NONE
  | WRITE_MESSAGE
  | READ_MESSAGE
  | FAILED
  | SPLIT
deriving DecidableEq, Repr

/-- Pattern tokens (NOISE_TOKEN_*). -/
inductive Token where
  | E
  | S
  | DHEE
  | DHES
  | DHSE
  | DHSS
  | FLIP_DIR
  | END
deriving DecidableEq, Repr

/-- Protocol name prefixes: plain Noise or NoisePSK. -/
inductive NoisePfx where
  | standard
  | psk
deriving DecidableEq, Repr

/-- Handshake pattern identifiers used by the claims (NOISE_PATTERN_*). -/
inductive PatternId where
  | NN
  | XX
  | IK
  | XX_FALLBACK
deriving DecidableEq, Repr

/-- Protocol identifier: five algorithm identifier fields.  The field
`pfx_id` corresponds to the source's `prefix_id`. -/
structure NoiseProtocolId where
  pfx_id : NoisePfx
  pattern_id : PatternId
  dh_id : Nat
  cipher_id : Nat
  hash_id : Nat
deriving DecidableEq, Repr

/-- Symbolic byte strings: concrete literals plus the free algebra of the
derivations performed by the external hash/HKDF/DH capabilities. -/
inductive SBytes where
  | lit : List Nat → SBytes
  | hashOne : List Nat → SBytes
  | dh : List Nat → List Nat → SBytes
  | mixh : SBytes → SBytes → SBytes
  | hkdf1 : SBytes → SBytes → SBytes
  | hkdf2 : SBytes → SBytes → SBytes
deriving DecidableEq, Repr

/-- Modelled from the spec: the CipherState capability embedded in a
SymmetricState (has_key bit, 64-bit nonce, overflow bit, key). -/
structure CipherSt where
  has_key : Bool
  n : Nat
  nonce_overflow : Bool
  k : SBytes
  key_len : Nat
  mac_len : Nat
deriving DecidableEq, Repr

/-- The SymmetricState owned by a HandshakeState (struct NoiseSymmetricState_s;
the hash capability is represented by its output length `hash_len`). -/
structure SymmetricSt where
  id : NoiseProtocolId
  cipher : CipherSt
  hash_len : Nat
  ck : SBytes
  h : SBytes
deriving DecidableEq, Repr

/-- Modelled from the spec: the DHState capability (key lengths, key-presence
flags and the key material of a Curve25519/448 object). -/
structure DHState where
  private_key_len : Nat
  public_key_len : Nat
  shared_key_len : Nat
  has_keypair : Bool
  has_public : Bool
  private_key : List Nat
  public_key : List Nat
deriving DecidableEq, Repr

/-- The requirements bitset of a HandshakeState (NOISE_REQ_* bits). -/
structure NoiseReqs where
  prologue : Bool := false
  local_required : Bool := false
  remote_required : Bool := false
  local_premsg : Bool := false
  remote_premsg : Bool := false
  fallback_premsg : Bool := false
  psk : Bool := false
deriving DecidableEq, Repr

/-- Pattern flags byte (NOISE_PAT_FLAG_* bits). -/
structure PatternFlags where
  local_static : Bool := false
  local_ephemeral : Bool := false
  local_required : Bool := false
  local_ephem_req : Bool := false
  remote_static : Bool := false
  remote_ephemeral : Bool := false
  remote_required : Bool := false
  remote_ephem_req : Bool := false
deriving DecidableEq, Repr

/-- The HandshakeState object (struct NoiseHandshakeState_s).  The token
cursor is the list of tokens not yet consumed. -/
structure HandshakeState where
  symmetric : SymmetricSt
  role : Role
  action : Action
  requirements : NoiseReqs
  tokens : List Token
  dh_local_static : Option DHState
  dh_local_ephemeral : Option DHState
  dh_remote_static : Option DHState
  dh_remote_ephemeral : Option DHState
  dh_fixed_ephemeral : Option DHState
deriving DecidableEq, Repr

/-- A NoiseBuffer: `data` is the full capacity region behind the data
pointer, `data_null` models a NULL data pointer. -/
structure NoiseBuffer where
  data_null : Bool := false
  data : List Nat
  size : Nat
  max_size : Nat
deriving DecidableEq, Repr

/-- A view into a byte region of an underlying buffer, as the C code forms
with `rest.data = message->data + message->size` and with the shrinking
`msg` copy in the read path. -/
structure SubBuf where
  off : Nat
  size : Nat
  max_size : Nat
deriving DecidableEq, Repr

/-- Bytes `[off, off+len)` of a buffer. -/
def segment (data : List Nat) (off len : Nat) : List Nat :=
  (data.drop off).take len

/-- Overwrite the bytes of `data` starting at `off` with `src` (memcpy). -/
def writeBytes (data : List Nat) (off : Nat) (src : List Nat) : List Nat :=
  data.take off ++ src ++ data.drop (off + src.length)

/-- Modelled from the spec: noise_dhstate_has_keypair, with a NULL DHState
pointer reporting 0. -/
def noise_dhstate_has_keypair : Option DHState → Bool
  | none => false
  | some d => d.has_keypair

/-- Modelled from the spec: noise_dhstate_has_public_key, with a NULL DHState
pointer reporting 0. -/
def noise_dhstate_has_public_key : Option DHState → Bool
  | none => false
  | some d => d.has_public

/-- Modelled from the spec: noise_dhstate_clear_key zeroizes the key material
and clears the presence flags. -/
def noise_dhstate_clear_key (d : DHState) : DHState :=
  { d with has_keypair := false, has_public := false,
           private_key := List.replicate d.private_key_len 0,
           public_key := List.replicate d.public_key_len 0 }

/-- Modelled from the spec: noise_dhstate_set_public_key installs a public
key of the correct length. -/
def noise_dhstate_set_public_key (d : DHState) (bytes : List Nat) :
    NoiseError × DHState :=
  if bytes.length = d.public_key_len then
    (NoiseError.NONE,
     { d with public_key := bytes, has_public := true, has_keypair := false })
  else (NoiseError.INVALID_LENGTH, d)

/-- Modelled from the spec: noise_dhstate_set_keypair installs a fixed
keypair (used for the fixed test ephemeral). -/
def noise_dhstate_set_keypair (d : DHState) (priv pub : List Nat) :
    NoiseError × DHState :=
  if priv.length = d.private_key_len ∧ pub.length = d.public_key_len then
    (NoiseError.NONE,
     { d with private_key := priv, public_key := pub,
              has_keypair := true, has_public := true })
  else (NoiseError.INVALID_LENGTH, d)

/-- Modelled from the spec: noise_dhstate_generate_keypair.  The RNG is an
external capability; the generated material is a deterministic placeholder,
which no proved property depends on. -/
def noise_dhstate_generate_keypair (d : DHState) : NoiseError × DHState :=
  (NoiseError.NONE,
   { d with private_key := List.replicate d.private_key_len 7,
            public_key := List.replicate d.public_key_len 9,
            has_keypair := true, has_public := true })

/-- Modelled from the spec: noise_dhstate_is_null_public_key detects the
all-zero public key. -/
def noise_dhstate_is_null_public_key (d : DHState) : Bool :=
  d.public_key.all (fun b => b == 0)

/-- Modelled from the spec: the error result of noise_dhstate_calculate
(the shared secret itself is the symbolic `SBytes.dh`). -/
def noise_dhstate_calculate (priv pub : DHState) : NoiseError :=
  if priv.has_keypair = false then NoiseError.INVALID_PRIVATE_KEY
  else if pub.has_public = false then NoiseError.INVALID_PUBLIC_KEY
  else NoiseError.NONE

/-- Modelled from the spec: noise_symmetricstate_mix_hash,
`h = Hash(h || data)`. -/
def noise_symmetricstate_mix_hash (ss : SymmetricSt) (input : SBytes) :
    NoiseError × SymmetricSt :=
  (NoiseError.NONE, { ss with h := SBytes.mixh ss.h input })

/-- Modelled from the spec: noise_symmetricstate_mix_key,
`(ck, temp_k) = HKDF2(ck, input)`; installs the truncated `temp_k` as the
cipher key and resets the nonce. -/
def noise_symmetricstate_mix_key (ss : SymmetricSt) (input : SBytes) :
    NoiseError × SymmetricSt :=
  (NoiseError.NONE,
   { ss with ck := SBytes.hkdf1 ss.ck input,
             cipher := { ss.cipher with
                           has_key := true, n := 0, nonce_overflow := false,
                           k := SBytes.hkdf2 ss.ck input } })

/-- Modelled from the spec: noise_symmetricstate_get_mac_length — the MAC is
present only once the cipher is keyed. -/
def noise_symmetricstate_get_mac_length (ss : SymmetricSt) : Nat :=
  if ss.cipher.has_key then ss.cipher.mac_len else 0

/-- Modelled from the spec: noise_symmetricstate_encrypt_and_hash over the
region `b` of `data`: when keyed, AEAD-encrypt in place (identity byte
model), append the MAC, step the nonce, and mix the resulting region into
`h`; when unkeyed, just mix the region into `h`. -/
def noise_symmetricstate_encrypt_and_hash (ss : SymmetricSt)
    (data : List Nat) (b : SubBuf) :
    NoiseError × SymmetricSt × List Nat × SubBuf :=
  if ss.cipher.has_key then
    if ss.cipher.nonce_overflow then (NoiseError.INVALID_NONCE, ss, data, b)
    else if b.max_size < b.size + ss.cipher.mac_len then
      (NoiseError.INVALID_LENGTH, ss, data, b)
    else
      let data' := writeBytes data (b.off + b.size)
                     (List.replicate ss.cipher.mac_len 0)
      let b' : SubBuf := ⟨b.off, b.size + ss.cipher.mac_len, b.max_size⟩
      let cipher' := { ss.cipher with
                         n := (ss.cipher.n + 1) % 2 ^ 64,
                         nonce_overflow := decide (ss.cipher.n + 1 = 2 ^ 64) }
      let ss₁ := { ss with cipher := cipher' }
      (NoiseError.NONE,
       ({ ss₁ with h := SBytes.mixh ss₁.h (SBytes.lit (segment data' b'.off b'.size)) }),
       data', b')
  else
    if b.max_size < b.size then (NoiseError.INVALID_LENGTH, ss, data, b)
    else
      (NoiseError.NONE,
       ({ ss with h := SBytes.mixh ss.h (SBytes.lit (segment data b.off b.size)) }),
       data, b)

/-- Modelled from the spec: noise_symmetricstate_decrypt_and_hash over the
region `b` of `data`: when keyed, check the MAC length, mix the original
ciphertext region into `h`, decrypt in place (identity byte model), trim the
MAC and step the nonce; when unkeyed, just mix the region into `h`.  The
external MAC verification itself cannot fail in this model. -/
def noise_symmetricstate_decrypt_and_hash (ss : SymmetricSt)
    (data : List Nat) (b : SubBuf) :
    NoiseError × SymmetricSt × List Nat × SubBuf :=
  if ss.cipher.has_key then
    if ss.cipher.nonce_overflow then (NoiseError.INVALID_NONCE, ss, data, b)
    else if b.size < ss.cipher.mac_len then
      (NoiseError.INVALID_LENGTH, ss, data, b)
    else
      let cipher' := { ss.cipher with
                         n := (ss.cipher.n + 1) % 2 ^ 64,
                         nonce_overflow := decide (ss.cipher.n + 1 = 2 ^ 64) }
      (NoiseError.NONE,
       ({ ss with cipher := cipher',
                  h := SBytes.mixh ss.h (SBytes.lit (segment data b.off b.size)) }),
       data, ⟨b.off, b.size - ss.cipher.mac_len, b.max_size⟩)
  else
    (NoiseError.NONE,
     ({ ss with h := SBytes.mixh ss.h (SBytes.lit (segment data b.off b.size)) }),
     data, b)

/-- Modelled from the spec: noise_symmetricstate_split derives the two
transport keys with HKDF from `ck` (mixing a 32-byte secondary key when one
is given) and emits fresh keyed CipherStates with counters at 0.  The first
output slot carries the first derived key. -/
def noise_symmetricstate_split (ss : SymmetricSt) (want1 want2 : Bool)
    (key : List Nat) (key_len : Nat) :
    NoiseError × Option CipherSt × Option CipherSt :=
  let ikm : SBytes :=
    if key_len = 0 then SBytes.lit [] else SBytes.lit (key.take key_len)
  let c1 : CipherSt :=
    { has_key := true, n := 0, nonce_overflow := false,
      k := SBytes.hkdf1 ss.ck ikm,
      key_len := ss.cipher.key_len, mac_len := ss.cipher.mac_len }
  let c2 : CipherSt := { c1 with k := SBytes.hkdf2 ss.ck ikm }
  (NoiseError.NONE,
   if want1 then some c1 else none,
   if want2 then some c2 else none)

/-- Modelled from the spec: noise_pattern_reverse_flags swaps the local and
remote bit pairs so that the responder is "local". -/
def noise_pattern_reverse_flags (f : PatternFlags) : PatternFlags :=
  { local_static := f.remote_static, remote_static := f.local_static,
    local_ephemeral := f.remote_ephemeral,
    remote_ephemeral := f.local_ephemeral,
    local_required := f.remote_required, remote_required := f.local_required,
    local_ephem_req := f.remote_ephem_req,
    remote_ephem_req := f.local_ephem_req }

/-- Modelled from the spec: the static pattern table (patterns.c), mapping a
pattern identifier to its flags byte and token sequence.  The claims do not
depend on the exact token strings; the entries follow the Noise Pipes
patterns in the library's sender-relative token notation. -/
def noise_pattern_lookup (id : PatternId) :
    Option (PatternFlags × List Token) :=
  match id with
  | PatternId.NN =>
      some ({ local_ephemeral := true, remote_ephemeral := true },
            [Token.E, Token.FLIP_DIR, Token.E, Token.DHEE, Token.END])
  | PatternId.XX =>
      some ({ local_static := true, local_ephemeral := true,
              remote_static := true, remote_ephemeral := true },
            [Token.E, Token.FLIP_DIR,
             Token.E, Token.DHEE, Token.S, Token.DHSE, Token.FLIP_DIR,
             Token.S, Token.DHSE, Token.END])
  | PatternId.IK =>
      some ({ local_static := true, local_ephemeral := true,
              remote_static := true, remote_ephemeral := true,
              remote_required := true },
            [Token.E, Token.DHES, Token.S, Token.DHSS, Token.FLIP_DIR,
             Token.E, Token.DHEE, Token.DHSE, Token.END])
  | PatternId.XX_FALLBACK =>
      some ({ local_static := true, local_ephemeral := true,
              remote_static := true, remote_ephemeral := true,
              remote_ephem_req := true },
            [Token.E, Token.DHEE, Token.S, Token.DHSE, Token.FLIP_DIR,
             Token.S, Token.DHSE, Token.END])

/-- Maximum protocol name length (NOISE_MAX_PROTOCOL_NAME). -/
def NOISE_MAX_PROTOCOL_NAME : Nat := 128

/-- Modelled from the spec: the full protocol name of a protocol identifier
as a byte string ("Noise[PSK]_pattern_dh_cipher_hash"; the numeric algorithm
identifiers stand in for their name components). -/
def protocol_name_bytes (id : NoiseProtocolId) : List Nat :=
  (match id.pfx_id with
   | NoisePfx.standard => [78, 111, 105, 115, 101]
   | NoisePfx.psk => [78, 111, 105, 115, 101, 80, 83, 75])
  ++ [95] ++
  (match id.pattern_id with
   | PatternId.NN => [78, 78]
   | PatternId.XX => [88, 88]
   | PatternId.IK => [73, 75]
   | PatternId.XX_FALLBACK => [88, 88, 102, 97, 108, 108, 98, 97, 99, 107])
  ++ [95, id.dh_id, 95, id.cipher_id, 95, id.hash_id]

/-- Modelled from the spec: noise_protocol_id_to_name, failing with
InvalidLength when the formatted name does not fit the name buffer. -/
def noise_protocol_id_to_name (id : NoiseProtocolId) :
    NoiseError × List Nat :=
  let name := protocol_name_bytes id
  if name.length + 1 ≤ NOISE_MAX_PROTOCOL_NAME then (NoiseError.NONE, name)
  else (NoiseError.INVALID_LENGTH, [])

/-- noise_handshakestate_requirements: the initial requirements bitset for a
handshake pattern (handshakestate.c lines 59-83). -/
def noise_handshakestate_requirements (flags : PatternFlags)
    (pfx_id : NoisePfx) (_role : Role) (is_fallback : Bool) : NoiseReqs :=
  { prologue := true
    local_required := flags.local_static || flags.local_required
    local_premsg := flags.local_required
    remote_required := flags.remote_required
    remote_premsg := flags.remote_required
    fallback_premsg :=
      (flags.remote_ephem_req || flags.local_ephem_req) && is_fallback
    psk := pfx_id == NoisePfx.psk }

/-- noise_handshakestate_needs_pre_shared_key (handshakestate.c lines
404-410); the C int result 1/0 is a Bool. -/
def noise_handshakestate_needs_pre_shared_key
    (state : Option HandshakeState) : Bool :=
  match state with
  | none => false
  | some s => s.requirements.psk

/-- noise_handshakestate_has_pre_shared_key (handshakestate.c lines
423-431). -/
def noise_handshakestate_has_pre_shared_key
    (state : Option HandshakeState) : Bool :=
  match state with
  | none => false
  | some s =>
      if s.requirements.psk then false
      else decide (s.symmetric.id.pfx_id = NoisePfx.psk)

/-- noise_handshakestate_set_prologue (handshakestate.c lines 512-527). -/
def noise_handshakestate_set_prologue (state : Option HandshakeState)
    (prologue : Option (List Nat)) : NoiseError × Option HandshakeState :=
  match state, prologue with
  | some s, some p =>
      if s.action ≠ Action.NONE then (NoiseError.INVALID_STATE, some s)
      else if s.requirements.prologue = false then
        (NoiseError.INVALID_STATE, some s)
      else
        (NoiseError.NONE,
         some { s with
                  symmetric :=
                    (noise_symmetricstate_mix_hash s.symmetric (SBytes.lit p)).2,
                  requirements := { s.requirements with prologue := false } })
  | _, _ => (NoiseError.INVALID_PARAM, state)

/-- noise_handshakestate_set_pre_shared_key (handshakestate.c lines
457-490): HKDF2(ck, key) replaces ck and the second output is mixed into h,
after absorbing an empty prologue if none was given. -/
def noise_handshakestate_set_pre_shared_key (state : Option HandshakeState)
    (key : Option (List Nat)) : NoiseError × Option HandshakeState :=
  match state, key with
  | some s, some k =>
      if k.length ≠ 32 then (NoiseError.INVALID_LENGTH, some s)
      else if s.symmetric.id.pfx_id ≠ NoisePfx.psk then
        (NoiseError.NOT_APPLICABLE, some s)
      else if s.action ≠ Action.NONE then (NoiseError.INVALID_STATE, some s)
      else if s.requirements.psk = false then
        (NoiseError.INVALID_STATE, some s)
      else
        let s₁ :=
          if s.requirements.prologue then
            match noise_handshakestate_set_prologue (some s) (some []) with
            | (_, some s') => s'
            | (_, none) => s
          else s
        let ck := s₁.symmetric.ck
        let ss₁ := { s₁.symmetric with ck := SBytes.hkdf1 ck (SBytes.lit k) }
        let ss₂ :=
          (noise_symmetricstate_mix_hash ss₁ (SBytes.hkdf2 ck (SBytes.lit k))).2
        (NoiseError.NONE,
         some { s₁ with symmetric := ss₂,
                        requirements := { s₁.requirements with psk := false } })
  | _, _ => (NoiseError.INVALID_PARAM, state)

/-- noise_handshakestate_mix_public_key (handshakestate.c lines 630-637):
mixes a DH object's public key into h when the object holds one (a NULL
object or an object without a public key is silently skipped). -/
def noise_handshakestate_mix_public_key (s : HandshakeState)
    (dh : Option DHState) : HandshakeState :=
  if noise_dhstate_has_public_key dh then
    match dh with
    | some d =>
        { s with symmetric :=
            (noise_symmetricstate_mix_hash s.symmetric
              (SBytes.lit d.public_key)).2 }
    | none => s
  else s

/-- noise_handshakestate_start (handshakestate.c lines 667-715). -/
def noise_handshakestate_start (state : Option HandshakeState) :
    NoiseError × Option HandshakeState :=
  match state with
  | none => (NoiseError.INVALID_PARAM, none)
  | some s =>
      if s.action ≠ Action.NONE then (NoiseError.INVALID_STATE, some s)
      else if s.symmetric.id.pattern_id = PatternId.XX_FALLBACK ∧
              s.requirements.fallback_premsg = false then
        (NoiseError.NOT_APPLICABLE, some s)
      else if s.requirements.local_required ∧
              noise_dhstate_has_keypair s.dh_local_static = false then
        (NoiseError.LOCAL_KEY_REQUIRED, some s)
      else if s.requirements.remote_required ∧
              noise_dhstate_has_public_key s.dh_remote_static = false then
        (NoiseError.REMOTE_KEY_REQUIRED, some s)
      else if s.requirements.psk then (NoiseError.PSK_REQUIRED, some s)
      else
        let s₁ :=
          if s.requirements.prologue then
            match noise_handshakestate_set_prologue (some s) (some []) with
            | (_, some s') => s'
            | (_, none) => s
          else s
        let s₂ :=
          if s₁.role = Role.INITIATOR then
            let a := if s₁.requirements.local_premsg then
                noise_handshakestate_mix_public_key s₁ s₁.dh_local_static
              else s₁
            let b := if a.requirements.remote_premsg then
                noise_handshakestate_mix_public_key a a.dh_remote_static
              else a
            if b.requirements.fallback_premsg then
              noise_handshakestate_mix_public_key b b.dh_remote_ephemeral
            else b
          else
            let a := if s₁.requirements.remote_premsg then
                noise_handshakestate_mix_public_key s₁ s₁.dh_remote_static
              else s₁
            let b := if a.requirements.local_premsg then
                noise_handshakestate_mix_public_key a a.dh_local_static
              else a
            if b.requirements.fallback_premsg then
              noise_handshakestate_mix_public_key b b.dh_local_ephemeral
            else b
        (NoiseError.NONE,
         some { s₂ with action :=
                  if s₂.role = Role.INITIATOR then Action.WRITE_MESSAGE
                  else Action.READ_MESSAGE })

/-- noise_handshakestate_fallback (handshakestate.c lines 747-834). -/
def noise_handshakestate_fallback (state : Option HandshakeState) :
    NoiseError × Option HandshakeState :=
  match state with
  | none => (NoiseError.INVALID_PARAM, none)
  | some s =>
      if s.symmetric.id.pattern_id ≠ PatternId.IK then
        (NoiseError.NOT_APPLICABLE, some s)
      else if s.role = Role.INITIATOR ∧
              ¬(s.action = Action.FAILED ∨ s.action = Action.READ_MESSAGE) then
        (NoiseError.INVALID_STATE, some s)
      else if s.role = Role.INITIATOR ∧
              noise_dhstate_has_public_key s.dh_local_ephemeral = false then
        (NoiseError.INVALID_STATE, some s)
      else if s.role = Role.RESPONDER ∧
              ¬(s.action = Action.FAILED ∨ s.action = Action.WRITE_MESSAGE) then
        (NoiseError.INVALID_STATE, some s)
      else if s.role = Role.RESPONDER ∧
              noise_dhstate_has_public_key s.dh_remote_ephemeral = false then
        (NoiseError.INVALID_STATE, some s)
      else
        let id := { s.symmetric.id with pattern_id := PatternId.XX_FALLBACK }
        match noise_protocol_id_to_name id with
        | (NoiseError.NONE, name) =>
            let s₁ :=
              { s with
                  symmetric := { s.symmetric with id := id },
                  dh_remote_static :=
                    s.dh_remote_static.map noise_dhstate_clear_key }
            let s₂ :=
              if s.role = Role.INITIATOR then
                { s₁ with
                    dh_remote_ephemeral :=
                      s₁.dh_remote_ephemeral.map noise_dhstate_clear_key,
                    role := Role.RESPONDER }
              else
                { s₁ with
                    dh_local_ephemeral :=
                      s₁.dh_local_ephemeral.map noise_dhstate_clear_key,
                    role := Role.INITIATOR }
            match noise_pattern_lookup PatternId.XX_FALLBACK with
            | some (flags0, toks) =>
                let s₃ := { s₂ with tokens := toks, action := Action.NONE }
                let flags :=
                  if s₃.role = Role.RESPONDER then
                    noise_pattern_reverse_flags flags0
                  else flags0
                let s₄ :=
                  { s₃ with requirements :=
                      (noise_handshakestate_requirements flags id.pfx_id
                        s₃.role true) }
                let hash_len := s₄.symmetric.hash_len
                let h' :=
                  if name.length ≤ hash_len then
                    SBytes.lit (name ++ List.replicate (hash_len - name.length) 0)
                  else SBytes.hashOne name
                (NoiseError.NONE,
                 some { s₄ with symmetric :=
                          { s₄.symmetric with
                              h := h', ck := h',
                              cipher := { s₄.symmetric.cipher with
                                            has_key := false, n := 0,
                                            nonce_overflow := false } } })
            | none => (NoiseError.UNKNOWN_ID, some s₂)
        | (err, _) => (err, some s)

/-- noise_handshakestate_get_action (handshakestate.c lines 865-868). -/
def noise_handshakestate_get_action (state : Option HandshakeState) : Action :=
  match state with
  | none => Action.NONE
  | some s => s.action

/-- noise_handshake_mix_dh (handshakestate.c lines 881-891): DH between the
named private and public key objects, mixed into ck unconditionally, with
the calculate error propagated.  The C code would dereference a NULL key
object; patterns never produce that, and the model reports InvalidParam. -/
def noise_handshake_mix_dh (s : HandshakeState)
    (priv pub : Option DHState) : NoiseError × HandshakeState :=
  match priv, pub with
  | some pk, some pb =>
      let shared := SBytes.dh pk.private_key pb.public_key
      let err := noise_dhstate_calculate pk pb
      let ss := (noise_symmetricstate_mix_key s.symmetric shared).2
      (err, { s with symmetric := ss })
  | _, _ => (NoiseError.INVALID_PARAM, s)

/-- One iteration of the write-side token switch of
noise_handshakestate_write (handshakestate.c lines 936-1011), acting on the
message buffer contents `data` with committed size `size` and capacity
`max`.  The last component is the number of bytes produced (the C
`rest.size`). -/
def noise_handshakestate_write_token (s : HandshakeState) (data : List Nat)
    (size max : Nat) (tok : Token) :
    NoiseError × HandshakeState × List Nat × Nat :=
  let restMax := max - size
  match tok with
  | Token.E =>
      match s.dh_local_ephemeral with
      | none => (NoiseError.INVALID_STATE, s, data, 0)
      | some le =>
          let len := le.public_key_len
          let gen :=
            match s.dh_fixed_ephemeral with
            | none => noise_dhstate_generate_keypair le
            | some fe => noise_dhstate_set_keypair le fe.private_key
                           fe.public_key
          match gen with
          | (NoiseError.NONE, le') =>
              if restMax < len then
                (NoiseError.INVALID_LENGTH,
                 { s with dh_local_ephemeral := some le' }, data, 0)
              else
                let data' := writeBytes data size le'.public_key
                let s₁ :=
                  { s with
                      dh_local_ephemeral := some le',
                      symmetric :=
                        (noise_symmetricstate_mix_hash s.symmetric
                          (SBytes.lit le'.public_key)).2 }
                if s₁.symmetric.id.pfx_id = NoisePfx.psk then
                  let r := noise_symmetricstate_mix_key s₁.symmetric
                             (SBytes.lit le'.public_key)
                  (r.1, { s₁ with symmetric := r.2 }, data', len)
                else (NoiseError.NONE, s₁, data', len)
          | (err, _) => (err, s, data, 0)
  | Token.S =>
      match s.dh_local_static with
      | none => (NoiseError.INVALID_STATE, s, data, 0)
      | some ls =>
          let len := ls.public_key_len
          let mac_len := noise_symmetricstate_get_mac_length s.symmetric
          if restMax < len + mac_len then
            (NoiseError.INVALID_LENGTH, s, data, 0)
          else
            let data' := writeBytes data size ls.public_key
            let rest : SubBuf := ⟨size, len, restMax⟩
            match noise_symmetricstate_encrypt_and_hash s.symmetric data'
                    rest with
            | (err, ss', data₂, rest') =>
                (err, { s with symmetric := ss' }, data₂, rest'.size)
  | Token.DHEE =>
      let r := noise_handshake_mix_dh s s.dh_local_ephemeral
                 s.dh_remote_ephemeral
      (r.1, r.2, data, 0)
  | Token.DHES =>
      let r := noise_handshake_mix_dh s s.dh_local_ephemeral
                 s.dh_remote_static
      (r.1, r.2, data, 0)
  | Token.DHSE =>
      let r := noise_handshake_mix_dh s s.dh_local_static
                 s.dh_remote_ephemeral
      (r.1, r.2, data, 0)
  | Token.DHSS =>
      let r := noise_handshake_mix_dh s s.dh_local_static
                 s.dh_remote_static
      (r.1, r.2, data, 0)
  | _ => (NoiseError.INVALID_STATE, s, data, 0)

/-- The write-side token loop of noise_handshakestate_write (handshakestate.c
lines 914-1016): process tokens until FLIP_DIR or END, committing each
token's output into the message size; errors abort with the size of the
failing token's output uncommitted. -/
def noise_handshakestate_write_loop :
    List Token → HandshakeState → List Nat → Nat → Nat →
    NoiseError × HandshakeState × List Nat × Nat
  | [], s, data, size, _ =>
      (NoiseError.INVALID_STATE, { s with tokens := [] }, data, size)
  | Token.END :: rest, s, data, size, _ =>
      (NoiseError.NONE,
       { s with action := Action.SPLIT, tokens := Token.END :: rest },
       data, size)
  | Token.FLIP_DIR :: rest, s, data, size, _ =>
      (NoiseError.NONE,
       { s with action := Action.READ_MESSAGE, tokens := rest }, data, size)
  | tok :: rest, s, data, size, max =>
      match noise_handshakestate_write_token s data size max tok with
      | (NoiseError.NONE, s', data', restSize) =>
          noise_handshakestate_write_loop rest { s' with tokens := rest }
            data' (size + restSize) max
      | (err, s', data', _) =>
          (err, { s' with tokens := tok :: rest }, data', size)

/-- noise_handshakestate_write (handshakestate.c lines 904-1041): the token
loop followed by appending and encrypting the payload.  Returns the final
committed message size. -/
def noise_handshakestate_write_inner (s : HandshakeState)
    (message : NoiseBuffer) (payload : Option NoiseBuffer) :
    NoiseError × HandshakeState × List Nat × Nat :=
  match noise_handshakestate_write_loop s.tokens s message.data message.size
          message.max_size with
  | (NoiseError.NONE, s', data', size') =>
      let mac_len := noise_symmetricstate_get_mac_length s'.symmetric
      if message.max_size - size' < mac_len then
        (NoiseError.INVALID_LENGTH, s', data', size')
      else
        let pbytes := match payload with
                      | some p => p.data.take p.size
                      | none => []
        let psize := match payload with
                     | some p => p.size
                     | none => 0
        if message.max_size - size' - mac_len < psize then
          (NoiseError.INVALID_LENGTH, s', data', size')
        else
          let data₂ := writeBytes data' size' pbytes
          let rest : SubBuf := ⟨size', psize, message.max_size - size'⟩
          match noise_symmetricstate_encrypt_and_hash s'.symmetric data₂
                  rest with
          | (NoiseError.NONE, ss', data₃, rest') =>
              (NoiseError.NONE, { s' with symmetric := ss' }, data₃,
               size' + rest'.size)
          | (err, ss', data₃, _) =>
              (err, { s' with symmetric := ss' }, data₃, size')
  | (err, s', data', size') => (err, s', data', size')

/-- Whether an optional payload buffer carries a NULL data pointer
(the `payload && !(payload->data)` validation test). -/
def payloadDataNull : Option NoiseBuffer → Bool
  | none => false
  | some p => p.data_null

/-- Result of noise_handshakestate_write_message: error code plus the state
and message buffer as left by the call. -/
structure WriteResult where
  err : NoiseError
  state : Option HandshakeState
  message : Option NoiseBuffer
deriving DecidableEq, Repr

/-- noise_handshakestate_write_message (handshakestate.c lines 1079-1103):
argument validation, the inner write, and the failure policy (action becomes
FAILED and the output size is zeroed when the inner write fails). -/
def noise_handshakestate_write_message (state : Option HandshakeState)
    (message : Option NoiseBuffer) (payload : Option NoiseBuffer) :
    WriteResult :=
  match message with
  | none => ⟨NoiseError.INVALID_PARAM, state, none⟩
  | some message₀ =>
      let message := { message₀ with size := 0 }
      match state with
      | none => ⟨NoiseError.INVALID_PARAM, none, some message⟩
      | some s =>
          if message.data_null then
            ⟨NoiseError.INVALID_PARAM, some s, some message⟩
          else if payloadDataNull payload then
            ⟨NoiseError.INVALID_PARAM, some s, some message⟩
          else if s.action ≠ Action.WRITE_MESSAGE then
            ⟨NoiseError.INVALID_STATE, some s, some message⟩
          else
            match noise_handshakestate_write_inner s message payload with
            | (NoiseError.NONE, s', data', size') =>
                ⟨NoiseError.NONE, some s',
                 some { message with data := data', size := size' }⟩
            | (err, s', data', _) =>
                ⟨err, some { s' with action := Action.FAILED },
                 some { message with data := data', size := 0 }⟩

/-- One iteration of the read-side token switch of
noise_handshakestate_read (handshakestate.c lines 1148-1231), acting on the
message contents `data` through the shrinking view `msg`. -/
def noise_handshakestate_read_token (s : HandshakeState) (data : List Nat)
    (msg : SubBuf) (tok : Token) :
    NoiseError × HandshakeState × List Nat × SubBuf :=
  match tok with
  | Token.E =>
      match s.dh_remote_ephemeral with
      | none => (NoiseError.INVALID_STATE, s, data, msg)
      | some re =>
          let len := re.public_key_len
          if msg.size < len then (NoiseError.INVALID_LENGTH, s, data, msg)
          else
            let bytes := segment data msg.off len
            let s₁ :=
              { s with symmetric :=
                  (noise_symmetricstate_mix_hash s.symmetric
                    (SBytes.lit bytes)).2 }
            match noise_dhstate_set_public_key re bytes with
            | (NoiseError.NONE, re') =>
                let s₂ := { s₁ with dh_remote_ephemeral := some re' }
                if noise_dhstate_is_null_public_key re' then
                  (NoiseError.INVALID_PUBLIC_KEY, s₂, data, msg)
                else
                  let msg' : SubBuf :=
                    ⟨msg.off + len, msg.size - len, msg.max_size - len⟩
                  if s₂.symmetric.id.pfx_id = NoisePfx.psk then
                    let r := noise_symmetricstate_mix_key s₂.symmetric
                               (SBytes.lit re'.public_key)
                    (r.1, { s₂ with symmetric := r.2 }, data, msg')
                  else (NoiseError.NONE, s₂, data, msg')
            | (err, re') =>
                (err, { s₁ with dh_remote_ephemeral := some re' }, data, msg)
  | Token.S =>
      match s.dh_remote_static with
      | none => (NoiseError.INVALID_STATE, s, data, msg)
      | some rs =>
          let mac_len := noise_symmetricstate_get_mac_length s.symmetric
          let len := rs.public_key_len + mac_len
          if msg.size < len then (NoiseError.INVALID_LENGTH, s, data, msg)
          else
            let msg2 : SubBuf := ⟨msg.off, len, len⟩
            match noise_symmetricstate_decrypt_and_hash s.symmetric data
                    msg2 with
            | (NoiseError.NONE, ss', data', msg2') =>
                let s₁ := { s with symmetric := ss' }
                match noise_dhstate_set_public_key rs
                        (segment data' msg2'.off msg2'.size) with
                | (NoiseError.NONE, rs') =>
                    (NoiseError.NONE,
                     { s₁ with dh_remote_static := some rs' }, data',
                     ⟨msg.off + len, msg.size - len, msg.max_size - len⟩)
                | (err, rs') =>
                    (err, { s₁ with dh_remote_static := some rs' }, data', msg)
            | (err, ss', data', _) =>
                (err, { s with symmetric := ss' }, data', msg)
  | Token.DHEE =>
      let r := noise_handshake_mix_dh s s.dh_local_ephemeral
                 s.dh_remote_ephemeral
      (r.1, r.2, data, msg)
  | Token.DHES =>
      let r := noise_handshake_mix_dh s s.dh_local_static
                 s.dh_remote_ephemeral
      (r.1, r.2, data, msg)
  | Token.DHSE =>
      let r := noise_handshake_mix_dh s s.dh_local_ephemeral
                 s.dh_remote_static
      (r.1, r.2, data, msg)
  | Token.DHSS =>
      let r := noise_handshake_mix_dh s s.dh_local_static
                 s.dh_remote_static
      (r.1, r.2, data, msg)
  | _ => (NoiseError.INVALID_STATE, s, data, msg)

/-- The read-side token loop of noise_handshakestate_read (handshakestate.c
lines 1134-1235). -/
def noise_handshakestate_read_loop :
    List Token → HandshakeState → List Nat → SubBuf →
    NoiseError × HandshakeState × List Nat × SubBuf
  | [], s, data, msg =>
      (NoiseError.INVALID_STATE, { s with tokens := [] }, data, msg)
  | Token.END :: rest, s, data, msg =>
      (NoiseError.NONE,
       { s with action := Action.SPLIT, tokens := Token.END :: rest },
       data, msg)
  | Token.FLIP_DIR :: rest, s, data, msg =>
      (NoiseError.NONE,
       { s with action := Action.WRITE_MESSAGE, tokens := rest }, data, msg)
  | tok :: rest, s, data, msg =>
      match noise_handshakestate_read_token s data msg tok with
      | (NoiseError.NONE, s', data', msg') =>
          noise_handshakestate_read_loop rest { s' with tokens := rest }
            data' msg'
      | (err, s', data', msg') =>
          (err, { s' with tokens := tok :: rest }, data', msg')

/-- noise_handshakestate_read (handshakestate.c lines 1119-1249): the token
loop, then the payload decrypt, then the copy into the caller's payload
buffer. -/
def noise_handshakestate_read_inner (s : HandshakeState) (data : List Nat)
    (msgSize msgMax : Nat) (payload : Option NoiseBuffer) :
    NoiseError × HandshakeState × List Nat × Option NoiseBuffer :=
  let msg : SubBuf := ⟨0, msgSize, msgMax⟩
  match noise_handshakestate_read_loop s.tokens s data msg with
  | (NoiseError.NONE, s', data', msg') =>
      match noise_symmetricstate_decrypt_and_hash s'.symmetric data'
              msg' with
      | (NoiseError.NONE, ss', data'', msg'') =>
          let s'' := { s' with symmetric := ss' }
          match payload with
          | some p =>
              if p.max_size < msg''.size then
                (NoiseError.INVALID_LENGTH, s'', data'', some p)
              else
                (NoiseError.NONE, s'', data'',
                 some { p with
                          data := writeBytes p.data 0
                                    (segment data'' msg''.off msg''.size),
                          size := msg''.size })
          | none => (NoiseError.NONE, s'', data'', none)
      | (err, ss', data'', _) =>
          (err, { s' with symmetric := ss' }, data'', payload)
  | (err, s', data', _) => (err, s', data', payload)

/-- Result of noise_handshakestate_read_message: error code plus the state,
message buffer and payload buffer as left by the call. -/
structure ReadResult where
  err : NoiseError
  state : Option HandshakeState
  message : Option NoiseBuffer
  payload : Option NoiseBuffer
deriving DecidableEq, Repr

/-- noise_handshakestate_read_message (handshakestate.c lines 1286-1310):
argument validation, the inner read, the unconditional zeroization of the
first message.size bytes of the message buffer, and the failure policy
(action becomes FAILED when the inner read fails). -/
def noise_handshakestate_read_message (state : Option HandshakeState)
    (message : Option NoiseBuffer) (payload : Option NoiseBuffer) :
    ReadResult :=
  if payloadDataNull payload then
    ⟨NoiseError.INVALID_PARAM, state, message, payload⟩
  else
    let payload₀ := payload.map (fun p => { p with size := 0 })
    match state, message with
    | some s, some message =>
        if message.data_null then
          ⟨NoiseError.INVALID_PARAM, some s, some message, payload₀⟩
        else if message.max_size < message.size then
          ⟨NoiseError.INVALID_LENGTH, some s, some message, payload₀⟩
        else if s.action ≠ Action.READ_MESSAGE then
          ⟨NoiseError.INVALID_STATE, some s, some message, payload₀⟩
        else
          match noise_handshakestate_read_inner s message.data message.size
                  message.max_size payload₀ with
          | (err, s', data', payload') =>
              let data'' := List.replicate message.size 0 ++
                              data'.drop message.size
              let s'' := if err = NoiseError.NONE then s'
                         else { s' with action := Action.FAILED }
              ⟨err, some s'', some { message with data := data'' }, payload'⟩
    | _, _ => ⟨NoiseError.INVALID_PARAM, state, message, payload₀⟩

/-- noise_handshakestate_split_with_key (handshakestate.c lines 1400-1431).
The send/receive output pointers are the Booleans `wantSend`/`wantReceive`;
the result carries (error, send slot, receive slot). -/
def noise_handshakestate_split_with_key (state : Option HandshakeState)
    (wantSend wantReceive : Bool) (key_null : Bool) (key : List Nat)
    (key_len : Nat) : NoiseError × Option CipherSt × Option CipherSt :=
  match state with
  | none => (NoiseError.INVALID_PARAM, none, none)
  | some s =>
      if wantSend = false ∧ wantReceive = false then
        (NoiseError.INVALID_PARAM, none, none)
      else if key_null ∧ key_len ≠ 0 then
        (NoiseError.INVALID_PARAM, none, none)
      else if key_len ≠ 0 ∧ key_len ≠ 32 then
        (NoiseError.INVALID_LENGTH, none, none)
      else if s.action ≠ Action.SPLIT then
        (NoiseError.INVALID_STATE, none, none)
      else if s.role = Role.RESPONDER then
        match noise_symmetricstate_split s.symmetric wantReceive wantSend key
                key_len with
        | (err, c1, c2) => (err, c2, c1)
      else
        noise_symmetricstate_split s.symmetric wantSend wantReceive key
          key_len

/-! Concrete objects used by the closed witness and counterexample
theorems below. -/

/-- A Curve25519-sized DH object holding both keys, parameterized to make
distinct key material. -/
def dhFull (a : Nat) : DHState :=
  { private_key_len := 32, public_key_len := 32, shared_key_len := 32,
    has_keypair := true, has_public := true,
    private_key := List.replicate 32 a,
    public_key := List.replicate 32 (a + 1) }

/-- A DH object holding no key at all. -/
def dhNoPub : DHState :=
  { private_key_len := 32, public_key_len := 32, shared_key_len := 32,
    has_keypair := false, has_public := false,
    private_key := List.replicate 32 0,
    public_key := List.replicate 32 0 }

/-- An unkeyed cipher as a fresh SymmetricState carries it. -/
def cipherUnkeyed : CipherSt :=
  { has_key := false, n := 0, nonce_overflow := false, k := SBytes.lit [],
    key_len := 32, mac_len := 16 }

/-- A keyed cipher mid-handshake. -/
def cipherKeyed : CipherSt :=
  { cipherUnkeyed with has_key := true, k := SBytes.lit [5] }

/-- A SymmetricState of an IK session. -/
def symIK : SymmetricSt :=
  { id := { pfx_id := NoisePfx.standard, pattern_id := PatternId.IK,
            dh_id := 1, cipher_id := 2, hash_id := 3 },
    cipher := cipherUnkeyed, hash_len := 32,
    ck := SBytes.lit [3], h := SBytes.lit [4] }

/-- A fully keyed IK handshake state used as the base of the concrete
examples. -/
def baseState : HandshakeState :=
  { symmetric := symIK, role := Role.INITIATOR, action := Action.NONE,
    requirements := {}, tokens := [Token.END],
    dh_local_static := some (dhFull 10),
    dh_local_ephemeral := some (dhFull 20),
    dh_remote_static := some (dhFull 30),
    dh_remote_ephemeral := some (dhFull 40),
    dh_fixed_ephemeral := none }

/-- Read-side state of claim C2's counterexample: pending tokens `e, s`,
keyed cipher. -/
def c2state : HandshakeState :=
  { baseState with
      action := Action.READ_MESSAGE,
      tokens := [Token.E, Token.S, Token.END],
      symmetric := { symIK with cipher := cipherKeyed } }

/-- A 32-byte message: long enough for the `e` token, truncated before the
`s + mac` bytes. -/
def c2message : NoiseBuffer :=
  { data := List.replicate 32 1, size := 32, max_size := 32 }

/-- A 16-byte message: shorter than even the `e` public key. -/
def c2shortMessage : NoiseBuffer :=
  { data := List.replicate 16 1, size := 16, max_size := 16 }

/-- Write-side state whose next token cannot fit the output buffer. -/
def c3wstate : HandshakeState :=
  { baseState with
      action := Action.WRITE_MESSAGE,
      tokens := [Token.E, Token.END] }

/-- A zero-capacity output buffer. -/
def c3wmessage : NoiseBuffer := { data := [], size := 0, max_size := 0 }

/-- Read-side state for claim C3's witness. -/
def c3rstate : HandshakeState :=
  { baseState with
      action := Action.READ_MESSAGE,
      tokens := [Token.E, Token.S, Token.END],
      symmetric := { symIK with cipher := cipherKeyed } }

/-- A short message for claim C3's witness. -/
def c3rmessage : NoiseBuffer :=
  { data := List.replicate 8 1, size := 8, max_size := 8 }

/-- An IK initiator waiting for the response message: eligible for
fallback. -/
def c4state : HandshakeState :=
  { baseState with action := Action.READ_MESSAGE }

/-- A start-ready state carrying every pre-message requirement. -/
def c7state : HandshakeState :=
  { baseState with
      requirements := { local_premsg := true, remote_premsg := true,
                        fallback_premsg := true } }

/-- As `c7state` but for the responder side. -/
def c7rstate : HandshakeState := { c7state with role := Role.RESPONDER }

/-- A start-ready state whose fallback pre-message key object holds no
public key. -/
def c9state : HandshakeState :=
  { baseState with
      requirements := { fallback_premsg := true },
      dh_remote_ephemeral := some dhNoPub }

/-- A handshake state that has reached the end of the pattern. -/
def c6state : HandshakeState := { baseState with action := Action.SPLIT }

/-- As `c6state` but for the responder side. -/
def c6rstate : HandshakeState := { c6state with role := Role.RESPONDER }

/-- A PSK-prefixed state that still requires its pre-shared key. -/
def c10state : HandshakeState :=
  { baseState with
      symmetric := { symIK with id := { symIK.id with pfx_id := NoisePfx.psk } },
      requirements := { prologue := true, psk := true } }

/-! Helper lemmas shared by the claim proofs. -/

/-- Taking `n` bytes of a buffer that starts with `n` zeros yields the
zeros. -/
theorem take_replicate_append (n : Nat) (l : List Nat) :
    (List.replicate n 0 ++ l).take n = List.replicate n 0 := by
  rw [List.take_append_of_le_length (by simp)]
  simp

/-- Formatting a protocol name never fails in the model. -/
theorem protocol_id_to_name_ok (id : NoiseProtocolId) :
    noise_protocol_id_to_name id = (NoiseError.NONE, protocol_name_bytes id) := by
  unfold noise_protocol_id_to_name
  rcases id with ⟨pfx, pat, d, c, h⟩
  cases pfx <;> cases pat <;>
    simp [protocol_name_bytes, NOISE_MAX_PROTOCOL_NAME]

/-- Mixing a pre-message public key changes only the transcript hash. -/
theorem mix_public_key_role (s : HandshakeState) (dh : Option DHState) :
    (noise_handshakestate_mix_public_key s dh).role = s.role := by
  unfold noise_handshakestate_mix_public_key
  cases dh <;> simp [noise_symmetricstate_mix_hash] <;> split <;> rfl

/-- Mixing a pre-message public key leaves the requirements unchanged. -/
theorem mix_public_key_requirements (s : HandshakeState)
    (dh : Option DHState) :
    (noise_handshakestate_mix_public_key s dh).requirements =
      s.requirements := by
  unfold noise_handshakestate_mix_public_key
  cases dh <;> simp [noise_symmetricstate_mix_hash] <;> split <;> rfl

/-- Mixing a pre-message public key leaves the DH objects unchanged. -/
theorem mix_public_key_dh (s : HandshakeState) (dh : Option DHState) :
    (noise_handshakestate_mix_public_key s dh).dh_local_static =
        s.dh_local_static ∧
    (noise_handshakestate_mix_public_key s dh).dh_local_ephemeral =
        s.dh_local_ephemeral ∧
    (noise_handshakestate_mix_public_key s dh).dh_remote_static =
        s.dh_remote_static ∧
    (noise_handshakestate_mix_public_key s dh).dh_remote_ephemeral =
        s.dh_remote_ephemeral := by
  unfold noise_handshakestate_mix_public_key
  cases dh <;> simp [noise_symmetricstate_mix_hash] <;> split <;>
    simp [noise_symmetricstate_mix_hash]

/-- Mixing a present pre-message public key extends the transcript hash. -/
theorem mix_public_key_h_present (s : HandshakeState) (d : DHState)
    (hp : d.has_public = true) :
    noise_handshakestate_mix_public_key s (some d) =
      { s with symmetric :=
          { s.symmetric with
              h := SBytes.mixh s.symmetric.h (SBytes.lit d.public_key) } } := by
  simp [noise_handshakestate_mix_public_key, noise_dhstate_has_public_key,
        hp, noise_symmetricstate_mix_hash]

/-- Mixing an absent pre-message public key is a no-op. -/
theorem mix_public_key_absent (s : HandshakeState) (dh : Option DHState)
    (hp : noise_dhstate_has_public_key dh = false) :
    noise_handshakestate_mix_public_key s dh = s := by
  simp [noise_handshakestate_mix_public_key, hp]

/-- C1: the DH operand selection of the token interpreters is crossed over
between the write side and the read side: the writer computes
DH(local_ephemeral, remote_static) for DHES and DH(local_static,
remote_ephemeral) for DHSE, while the reader computes DH(local_static,
remote_ephemeral) for DHES and DH(local_ephemeral, remote_static) for DHSE;
either way the result is mixed into ck. -/
theorem c1_dh_operand_selection (s : HandshakeState) (data : List Nat)
    (size max : Nat) (msg : SubBuf) (le ls re rs : DHState)
    (hle : s.dh_local_ephemeral = some le)
    (hls : s.dh_local_static = some ls)
    (hre : s.dh_remote_ephemeral = some re)
    (hrs : s.dh_remote_static = some rs) :
    (noise_handshakestate_write_token s data size max
        Token.DHES).2.1.symmetric.ck =
      SBytes.hkdf1 s.symmetric.ck (SBytes.dh le.private_key rs.public_key) ∧
    (noise_handshakestate_write_token s data size max
        Token.DHSE).2.1.symmetric.ck =
      SBytes.hkdf1 s.symmetric.ck (SBytes.dh ls.private_key re.public_key) ∧
    (noise_handshakestate_read_token s data msg
        Token.DHES).2.1.symmetric.ck =
      SBytes.hkdf1 s.symmetric.ck (SBytes.dh ls.private_key re.public_key) ∧
    (noise_handshakestate_read_token s data msg
        Token.DHSE).2.1.symmetric.ck =
      SBytes.hkdf1 s.symmetric.ck (SBytes.dh le.private_key rs.public_key) := by
  simp [noise_handshakestate_write_token, noise_handshakestate_read_token,
        noise_handshake_mix_dh, noise_symmetricstate_mix_key,
        hle, hls, hre, hrs]

/-- Witness for C1 at a concrete handshake state. -/
theorem c1_dh_operand_selection_witness :
    (noise_handshakestate_write_token baseState [] 0 0
        Token.DHES).2.1.symmetric.ck =
      SBytes.hkdf1 baseState.symmetric.ck
        (SBytes.dh (dhFull 20).private_key (dhFull 30).public_key) ∧
    (noise_handshakestate_write_token baseState [] 0 0
        Token.DHSE).2.1.symmetric.ck =
      SBytes.hkdf1 baseState.symmetric.ck
        (SBytes.dh (dhFull 10).private_key (dhFull 40).public_key) ∧
    (noise_handshakestate_read_token baseState [] ⟨0, 0, 0⟩
        Token.DHES).2.1.symmetric.ck =
      SBytes.hkdf1 baseState.symmetric.ck
        (SBytes.dh (dhFull 10).private_key (dhFull 40).public_key) ∧
    (noise_handshakestate_read_token baseState [] ⟨0, 0, 0⟩
        Token.DHSE).2.1.symmetric.ck =
      SBytes.hkdf1 baseState.symmetric.ck
        (SBytes.dh (dhFull 20).private_key (dhFull 30).public_key) :=
  c1_dh_operand_selection baseState [] 0 0 ⟨0, 0, 0⟩
    (dhFull 20) (dhFull 10) (dhFull 40) (dhFull 30) rfl rfl rfl rfl

/-- C10: needs_pre_shared_key and has_pre_shared_key never both report 1
(both report 0 on NULL); needs is exactly the pending PSK requirement bit
and has is exactly "PSK bit cleared and NoisePSK prefix", for every state,
so the exclusion is preserved by every operation. -/
theorem c10_psk_needs_has_exclusive (state : Option HandshakeState) :
    (noise_handshakestate_needs_pre_shared_key state &&
       noise_handshakestate_has_pre_shared_key state) = false ∧
    noise_handshakestate_needs_pre_shared_key none = false ∧
    noise_handshakestate_has_pre_shared_key none = false ∧
    (∀ s : HandshakeState,
      (noise_handshakestate_needs_pre_shared_key (some s) = true ↔
        s.requirements.psk = true) ∧
      (noise_handshakestate_has_pre_shared_key (some s) = true ↔
        (s.requirements.psk = false ∧
         s.symmetric.id.pfx_id = NoisePfx.psk))) := by
  refine ⟨?_, rfl, rfl, ?_⟩
  · cases state with
    | none => rfl
    | some s =>
        simp [noise_handshakestate_needs_pre_shared_key,
              noise_handshakestate_has_pre_shared_key]
        intro h
        simp [h]
  · intro s
    constructor
    · simp [noise_handshakestate_needs_pre_shared_key]
    · cases hp : s.requirements.psk <;>
        simp [noise_handshakestate_has_pre_shared_key, hp]

/-- Witness for C10 at a concrete PSK state. -/
theorem c10_psk_needs_has_exclusive_witness :
    (noise_handshakestate_needs_pre_shared_key (some c10state) &&
       noise_handshakestate_has_pre_shared_key (some c10state)) = false :=
  (c10_psk_needs_has_exclusive (some c10state)).1

/-- C6: split_with_key rejects a NULL state, both output slots NULL, and a
NULL secondary key of nonzero length with InvalidParam; a secondary key
length other than 0 or 32 with InvalidLength; an action other than Split
with InvalidState; otherwise it invokes the SymmetricState split with the
(send, receive) output slots swapped exactly when the role is Responder and
in the given order when the role is Initiator. -/
theorem c6_split_with_key_swap (state : Option HandshakeState)
    (wantSend wantReceive key_null : Bool) (key : List Nat) (key_len : Nat) :
    (state = none →
      noise_handshakestate_split_with_key state wantSend wantReceive key_null
          key key_len = (NoiseError.INVALID_PARAM, none, none)) ∧
    (∀ s, state = some s →
      (wantSend = false → wantReceive = false →
        noise_handshakestate_split_with_key state wantSend wantReceive
            key_null key key_len = (NoiseError.INVALID_PARAM, none, none)) ∧
      ((wantSend = true ∨ wantReceive = true) → key_null = true →
       key_len ≠ 0 →
        noise_handshakestate_split_with_key state wantSend wantReceive
            key_null key key_len = (NoiseError.INVALID_PARAM, none, none)) ∧
      ((wantSend = true ∨ wantReceive = true) → key_null = false →
       key_len ≠ 0 → key_len ≠ 32 →
        noise_handshakestate_split_with_key state wantSend wantReceive
            key_null key key_len = (NoiseError.INVALID_LENGTH, none, none)) ∧
      ((wantSend = true ∨ wantReceive = true) →
       (key_null = false ∨ key_len = 0) → (key_len = 0 ∨ key_len = 32) →
       s.action ≠ Action.SPLIT →
        noise_handshakestate_split_with_key state wantSend wantReceive
            key_null key key_len = (NoiseError.INVALID_STATE, none, none)) ∧
      ((wantSend = true ∨ wantReceive = true) →
       (key_null = false ∨ key_len = 0) → (key_len = 0 ∨ key_len = 32) →
       s.action = Action.SPLIT →
        noise_handshakestate_split_with_key state wantSend wantReceive
            key_null key key_len =
          (if s.role = Role.RESPONDER then
            ((noise_symmetricstate_split s.symmetric wantReceive wantSend
                key key_len).1,
             (noise_symmetricstate_split s.symmetric wantReceive wantSend
                key key_len).2.2,
             (noise_symmetricstate_split s.symmetric wantReceive wantSend
                key key_len).2.1)
          else
            noise_symmetricstate_split s.symmetric wantSend wantReceive
              key key_len))) := by
  constructor
  · intro h
    subst h
    rfl
  · intro s hst
    subst hst
    refine ⟨?_, ?_, ?_, ?_, ?_⟩
    · intro h1 h2
      simp [noise_handshakestate_split_with_key, h1, h2]
    · intro hw hk hkl
      rcases hw with h | h <;>
        simp [noise_handshakestate_split_with_key, h, hk, hkl]
    · intro hw hk h0 h32
      rcases hw with h | h <;>
        simp [noise_handshakestate_split_with_key, h, hk, h0, h32]
    · intro hw hk hlen hact
      rcases hw with h | h <;> rcases hk with hk | hk <;>
        rcases hlen with hlen | hlen <;>
        simp [noise_handshakestate_split_with_key, h, hk, hlen, hact]
    · intro hw hk hlen hact
      rcases hw with h | h <;> rcases hk with hk | hk <;>
        rcases hlen with hlen | hlen <;>
        by_cases hrole : s.role = Role.RESPONDER <;>
        simp [noise_handshakestate_split_with_key, h, hk, hlen, hact, hrole,
              noise_symmetricstate_split]

/-- Witness for C6: the responder's send slot carries the second derived
key, the receive slot the first. -/
theorem c6_split_with_key_swap_witness :
    noise_handshakestate_split_with_key (some c6rstate) true true false [] 0 =
      ((noise_symmetricstate_split c6rstate.symmetric true true [] 0).1,
       (noise_symmetricstate_split c6rstate.symmetric true true [] 0).2.2,
       (noise_symmetricstate_split c6rstate.symmetric true true [] 0).2.1) := by
  have h := ((c6_split_with_key_swap (some c6rstate) true true false [] 0).2
      c6rstate rfl).2.2.2.2 (Or.inl rfl) (Or.inl rfl) (Or.inl rfl)
      (by decide)
  simpa using h

/-- Setting the prologue before start mixes it into h and clears the
Prologue requirement. -/
theorem set_prologue_step (s : HandshakeState) (p : List Nat)
    (hact : s.action = Action.NONE)
    (hpro : s.requirements.prologue = true) :
    noise_handshakestate_set_prologue (some s) (some p) =
      (NoiseError.NONE,
       some { s with
                symmetric := { s.symmetric with
                                 h := SBytes.mixh s.symmetric.h (SBytes.lit p) },
                requirements := { s.requirements with prologue := false } }) := by
  simp [noise_handshakestate_set_prologue, hact, hpro,
        noise_symmetricstate_mix_hash]

/-- The no-argument shape of the state after start's implicit empty-prologue
absorption: role, action, requirements other than Prologue, and the DH
objects are unchanged. -/
theorem start_prologue_absorb (s : HandshakeState)
    (hact : s.action = Action.NONE) :
    (match noise_handshakestate_set_prologue (some s) (some []) with
     | (_, some s') => s'
     | (_, none) => s) =
      (if s.requirements.prologue then
        { s with
            symmetric := { s.symmetric with
                             h := SBytes.mixh s.symmetric.h (SBytes.lit []) },
            requirements := { s.requirements with prologue := false } }
       else s) := by
  by_cases hpro : s.requirements.prologue = true
  · rw [set_prologue_step s [] hact hpro]
    simp [hpro]
  · simp [noise_handshakestate_set_prologue, hact, hpro]

/-- C5: the start guard cascade — InvalidState when action is not None,
NotApplicable for an XX-fallback pattern without the FallbackPremsg
requirement, LocalKeyRequired / RemoteKeyRequired / PskRequired for missing
prerequisites, and otherwise success with action set to WriteMessage for
the initiator and ReadMessage for the responder. -/
theorem c5_start_guards (s : HandshakeState) :
    (s.action ≠ Action.NONE →
      noise_handshakestate_start (some s) =
        (NoiseError.INVALID_STATE, some s)) ∧
    (s.action = Action.NONE →
     s.symmetric.id.pattern_id = PatternId.XX_FALLBACK →
     s.requirements.fallback_premsg = false →
      noise_handshakestate_start (some s) =
        (NoiseError.NOT_APPLICABLE, some s)) ∧
    (s.action = Action.NONE →
     ¬(s.symmetric.id.pattern_id = PatternId.XX_FALLBACK ∧
       s.requirements.fallback_premsg = false) →
     s.requirements.local_required = true →
     noise_dhstate_has_keypair s.dh_local_static = false →
      noise_handshakestate_start (some s) =
        (NoiseError.LOCAL_KEY_REQUIRED, some s)) ∧
    (s.action = Action.NONE →
     ¬(s.symmetric.id.pattern_id = PatternId.XX_FALLBACK ∧
       s.requirements.fallback_premsg = false) →
     ¬(s.requirements.local_required = true ∧
       noise_dhstate_has_keypair s.dh_local_static = false) →
     s.requirements.remote_required = true →
     noise_dhstate_has_public_key s.dh_remote_static = false →
      noise_handshakestate_start (some s) =
        (NoiseError.REMOTE_KEY_REQUIRED, some s)) ∧
    (s.action = Action.NONE →
     ¬(s.symmetric.id.pattern_id = PatternId.XX_FALLBACK ∧
       s.requirements.fallback_premsg = false) →
     ¬(s.requirements.local_required = true ∧
       noise_dhstate_has_keypair s.dh_local_static = false) →
     ¬(s.requirements.remote_required = true ∧
       noise_dhstate_has_public_key s.dh_remote_static = false) →
     s.requirements.psk = true →
      noise_handshakestate_start (some s) =
        (NoiseError.PSK_REQUIRED, some s)) ∧
    (s.action = Action.NONE →
     ¬(s.symmetric.id.pattern_id = PatternId.XX_FALLBACK ∧
       s.requirements.fallback_premsg = false) →
     ¬(s.requirements.local_required = true ∧
       noise_dhstate_has_keypair s.dh_local_static = false) →
     ¬(s.requirements.remote_required = true ∧
       noise_dhstate_has_public_key s.dh_remote_static = false) →
     s.requirements.psk = false →
      (noise_handshakestate_start (some s)).1 = NoiseError.NONE ∧
      ((noise_handshakestate_start (some s)).2.map fun t => t.action) =
        some (if s.role = Role.INITIATOR then Action.WRITE_MESSAGE
              else Action.READ_MESSAGE)) := by
  refine ⟨?_, ?_, ?_, ?_, ?_, ?_⟩
  · intro h
    simp [noise_handshakestate_start, h]
  · intro h1 h2 h3
    simp [noise_handshakestate_start, h1, h2, h3]
  · intro h1 h2 h3 h4
    simp [noise_handshakestate_start, h1, h2, h3, h4]
  · intro h1 h2 h3 h4 h5
    simp [noise_handshakestate_start, h1, h2, h3, h4, h5]
  · intro h1 h2 h3 h4 h5
    simp [noise_handshakestate_start, h1, h2, h3, h4, h5]
  · intro h1 h2 h3 h4 h5
    simp only [noise_handshakestate_start, h1]
    rw [start_prologue_absorb s h1]
    simp [h2, h3, h4, h5, mix_public_key_role, apply_ite (fun t : HandshakeState => t.action),
          apply_ite (fun t : HandshakeState => t.role)]

/-- Witness for C5: a state with no outstanding requirements starts into
WriteMessage for the initiator; a state already started is rejected. -/
theorem c5_start_guards_witness :
    ((noise_handshakestate_start (some baseState)).2.map fun t => t.action) =
      some Action.WRITE_MESSAGE ∧
    noise_handshakestate_start (some c6state) =
      (NoiseError.INVALID_STATE, some c6state) := by
  constructor
  · have h := ((c5_start_guards baseState).2.2.2.2.2 rfl (by decide)
      (by decide) (by decide) rfl).2
    simpa using h
  · exact (c5_start_guards c6state).1 (by decide)

/-- C7: on a successful start the pre-message public keys are mixed into h
in a role-determined order — initiator: local static, remote static, remote
ephemeral; responder: remote static, local static, local ephemeral. -/
theorem c7_premsg_mix_order (s : HandshakeState) (ls rs le re : DHState)
    (hact : s.action = Action.NONE)
    (hna : ¬(s.symmetric.id.pattern_id = PatternId.XX_FALLBACK ∧
             s.requirements.fallback_premsg = false))
    (hpro : s.requirements.prologue = false)
    (hpsk : s.requirements.psk = false)
    (hlp : s.requirements.local_premsg = true)
    (hrp : s.requirements.remote_premsg = true)
    (hfp : s.requirements.fallback_premsg = true)
    (hls : s.dh_local_static = some ls)
    (hlsk : ls.has_keypair = true) (hlsp : ls.has_public = true)
    (hrs : s.dh_remote_static = some rs) (hrsp : rs.has_public = true)
    (hle : s.dh_local_ephemeral = some le) (hlep : le.has_public = true)
    (hre : s.dh_remote_ephemeral = some re) (hrep : re.has_public = true) :
    (s.role = Role.INITIATOR →
      noise_handshakestate_start (some s) =
        (NoiseError.NONE,
         some { s with
                  symmetric := { s.symmetric with
                      h := SBytes.mixh (SBytes.mixh (SBytes.mixh
                             s.symmetric.h (SBytes.lit ls.public_key))
                             (SBytes.lit rs.public_key))
                             (SBytes.lit re.public_key) },
                  action := Action.WRITE_MESSAGE })) ∧
    (s.role = Role.RESPONDER →
      noise_handshakestate_start (some s) =
        (NoiseError.NONE,
         some { s with
                  symmetric := { s.symmetric with
                      h := SBytes.mixh (SBytes.mixh (SBytes.mixh
                             s.symmetric.h (SBytes.lit rs.public_key))
                             (SBytes.lit ls.public_key))
                             (SBytes.lit le.public_key) },
                  action := Action.READ_MESSAGE })) := by
  constructor <;> intro hrole <;>
    simp [noise_handshakestate_start, noise_handshakestate_set_prologue,
          noise_handshakestate_mix_public_key, noise_dhstate_has_public_key,
          noise_dhstate_has_keypair,
          hact, hna, hpro, hpsk, hlp, hrp, hfp, hrole,
          hls, hlsk, hlsp, hrs, hrsp, hle, hlep, hre, hrep,
          noise_symmetricstate_mix_hash]

/-- Witness for C7 at concrete initiator and responder states. -/
theorem c7_premsg_mix_order_witness :
    noise_handshakestate_start (some c7state) =
      (NoiseError.NONE,
       some { c7state with
                symmetric := { c7state.symmetric with
                    h := SBytes.mixh (SBytes.mixh (SBytes.mixh
                           c7state.symmetric.h
                           (SBytes.lit (dhFull 10).public_key))
                           (SBytes.lit (dhFull 30).public_key))
                           (SBytes.lit (dhFull 40).public_key) },
                action := Action.WRITE_MESSAGE }) ∧
    noise_handshakestate_start (some c7rstate) =
      (NoiseError.NONE,
       some { c7rstate with
                symmetric := { c7rstate.symmetric with
                    h := SBytes.mixh (SBytes.mixh (SBytes.mixh
                           c7rstate.symmetric.h
                           (SBytes.lit (dhFull 30).public_key))
                           (SBytes.lit (dhFull 10).public_key))
                           (SBytes.lit (dhFull 20).public_key) },
                action := Action.READ_MESSAGE }) :=
  ⟨(c7_premsg_mix_order c7state (dhFull 10) (dhFull 30) (dhFull 20)
      (dhFull 40) rfl (by decide) rfl rfl rfl rfl rfl
      rfl rfl rfl rfl rfl rfl rfl rfl rfl).1 rfl,
   (c7_premsg_mix_order c7rstate (dhFull 10) (dhFull 30) (dhFull 20)
      (dhFull 40) rfl (by decide) rfl rfl rfl rfl rfl
      rfl rfl rfl rfl rfl rfl rfl rfl rfl).2 rfl⟩

/-- C9: a pre-message key whose requirement bit is set is mixed into h only
when its DH object actually holds a public key; with the FallbackPremsg bit
set but the fallback key object empty, the mix is silently skipped and
start still succeeds with h untouched. -/
theorem c9_premsg_skipped_without_key (s : HandshakeState) (re : DHState)
    (hact : s.action = Action.NONE)
    (hna : ¬(s.symmetric.id.pattern_id = PatternId.XX_FALLBACK ∧
             s.requirements.fallback_premsg = false))
    (hpro : s.requirements.prologue = false)
    (hpsk : s.requirements.psk = false)
    (hlr : s.requirements.local_required = false)
    (hrr : s.requirements.remote_required = false)
    (hlp : s.requirements.local_premsg = false)
    (hrp : s.requirements.remote_premsg = false)
    (hfp : s.requirements.fallback_premsg = true)
    (hrole : s.role = Role.INITIATOR)
    (hre : s.dh_remote_ephemeral = some re)
    (hrep : re.has_public = false) :
    (∀ (t : HandshakeState) (dh : Option DHState),
       noise_dhstate_has_public_key dh = false →
       noise_handshakestate_mix_public_key t dh = t) ∧
    (noise_handshakestate_start (some s)).1 = NoiseError.NONE ∧
    ((noise_handshakestate_start (some s)).2.map fun t => t.symmetric.h) =
      some s.symmetric.h := by
  refine ⟨fun t dh h => mix_public_key_absent t dh h, ?_, ?_⟩ <;>
    simp [noise_handshakestate_start, noise_handshakestate_set_prologue,
          noise_handshakestate_mix_public_key, noise_dhstate_has_public_key,
          hact, hna, hpro, hpsk, hlr, hrr, hlp, hrp, hfp, hrole, hre, hrep]

/-- Witness for C9: start succeeds at a concrete state whose fallback
pre-message key object holds no public key, and h is unchanged. -/
theorem c9_premsg_skipped_without_key_witness :
    (noise_handshakestate_start (some c9state)).1 = NoiseError.NONE ∧
    ((noise_handshakestate_start (some c9state)).2.map
        fun t => t.symmetric.h) = some c9state.symmetric.h :=
  (c9_premsg_skipped_without_key c9state dhNoPub rfl (by decide) rfl rfl
      rfl rfl rfl rfl rfl rfl rfl rfl).2

/-- C4: fallback succeeds only from an IK session whose side satisfies the
role-specific action and ephemeral-key preconditions; on success it
reverses the role, switches the pattern to XX-fallback, re-derives ck and h
from the new full protocol name (zero-padded to the hash length, or hashed
once when longer), clears the cipher key state, and sets action to None. -/
theorem c4_fallback_contract (s : HandshakeState) :
    (noise_handshakestate_fallback (some s)).1 = NoiseError.NONE →
    (s.symmetric.id.pattern_id = PatternId.IK ∧
     (s.role = Role.INITIATOR →
        (s.action = Action.FAILED ∨ s.action = Action.READ_MESSAGE) ∧
        noise_dhstate_has_public_key s.dh_local_ephemeral = true) ∧
     (s.role = Role.RESPONDER →
        (s.action = Action.FAILED ∨ s.action = Action.WRITE_MESSAGE) ∧
        noise_dhstate_has_public_key s.dh_remote_ephemeral = true)) ∧
    (∀ t, (noise_handshakestate_fallback (some s)).2 = some t →
       (s.role = Role.INITIATOR → t.role = Role.RESPONDER) ∧
       (s.role = Role.RESPONDER → t.role = Role.INITIATOR) ∧
       t.symmetric.id.pattern_id = PatternId.XX_FALLBACK ∧
       t.symmetric.h =
         (if (protocol_name_bytes
                { s.symmetric.id with
                    pattern_id := PatternId.XX_FALLBACK }).length ≤
             s.symmetric.hash_len then
            SBytes.lit (protocol_name_bytes
                { s.symmetric.id with
                    pattern_id := PatternId.XX_FALLBACK } ++
              List.replicate (s.symmetric.hash_len -
                (protocol_name_bytes
                  { s.symmetric.id with
                      pattern_id := PatternId.XX_FALLBACK }).length) 0)
          else SBytes.hashOne (protocol_name_bytes
                { s.symmetric.id with
                    pattern_id := PatternId.XX_FALLBACK })) ∧
       t.symmetric.ck = t.symmetric.h ∧
       t.symmetric.cipher.has_key = false ∧
       t.symmetric.cipher.n = 0 ∧
       t.symmetric.cipher.nonce_overflow = false ∧
       t.action = Action.NONE) := by
  intro hok
  by_cases h1 : s.symmetric.id.pattern_id = PatternId.IK
  case neg => simp [noise_handshakestate_fallback, h1] at hok
  by_cases h2 : s.role = Role.INITIATOR ∧
      ¬(s.action = Action.FAILED ∨ s.action = Action.READ_MESSAGE)
  case pos => simp [noise_handshakestate_fallback, h1, h2] at hok
  by_cases h3 : s.role = Role.INITIATOR ∧
      noise_dhstate_has_public_key s.dh_local_ephemeral = false
  case pos => simp [noise_handshakestate_fallback, h1, h2, h3] at hok
  by_cases h4 : s.role = Role.RESPONDER ∧
      ¬(s.action = Action.FAILED ∨ s.action = Action.WRITE_MESSAGE)
  case pos => simp [noise_handshakestate_fallback, h1, h2, h3, h4] at hok
  by_cases h5 : s.role = Role.RESPONDER ∧
      noise_dhstate_has_public_key s.dh_remote_ephemeral = false
  case pos => simp [noise_handshakestate_fallback, h1, h2, h3, h4, h5] at hok
  constructor
  · refine ⟨h1, ?_, ?_⟩
    · intro hrole
      refine ⟨by tauto, ?_⟩
      rcases hp : noise_dhstate_has_public_key s.dh_local_ephemeral
      · exact absurd ⟨hrole, hp⟩ h3
      · rfl
    · intro hrole
      refine ⟨by tauto, ?_⟩
      rcases hp : noise_dhstate_has_public_key s.dh_remote_ephemeral
      · exact absurd ⟨hrole, hp⟩ h5
      · rfl
  · intro t ht
    by_cases hrole : s.role = Role.INITIATOR
    · have ha : s.action = Action.FAILED ∨ s.action = Action.READ_MESSAGE := by
        tauto
      have hb : noise_dhstate_has_public_key s.dh_local_ephemeral = true := by
        rcases hp : noise_dhstate_has_public_key s.dh_local_ephemeral
        · exact absurd ⟨hrole, hp⟩ h3
        · rfl
      simp [noise_handshakestate_fallback, h1, hrole, ha, hb,
        protocol_id_to_name_ok, noise_pattern_lookup,
        Option.some.injEq] at ht
      subst ht
      simp [hrole]
    · have hrole2 : s.role = Role.RESPONDER := by
        cases hr : s.role
        · exact absurd hr hrole
        · rfl
      have ha : s.action = Action.FAILED ∨ s.action = Action.WRITE_MESSAGE := by
        tauto
      have hb : noise_dhstate_has_public_key s.dh_remote_ephemeral = true := by
        rcases hp : noise_dhstate_has_public_key s.dh_remote_ephemeral
        · exact absurd ⟨hrole2, hp⟩ h5
        · rfl
      simp [noise_handshakestate_fallback, h1, hrole2, ha, hb,
        protocol_id_to_name_ok, noise_pattern_lookup,
        Option.some.injEq] at ht
      subst ht
      simp [hrole2]

/-- Witness for C4: fallback succeeds from a concrete IK initiator state
waiting on the response, and the resulting action is None. -/
theorem c4_fallback_contract_witness :
    (noise_handshakestate_fallback (some c4state)).1 = NoiseError.NONE ∧
    c4state.symmetric.id.pattern_id = PatternId.IK ∧
    ((noise_handshakestate_fallback (some c4state)).2.map
        fun t => t.action) = some Action.NONE := by
  have hok : (noise_handshakestate_fallback (some c4state)).1 =
      NoiseError.NONE := by decide
  have h := c4_fallback_contract c4state hok
  refine ⟨hok, h.1.1, ?_⟩
  rcases hsome : (noise_handshakestate_fallback (some c4state)).2 with _ | t
  · exact absurd hsome (by decide)
  · simpa [hsome] using (h.2 t hsome).2.2.2.2.2.2.2.2

/-- C3: when the token/payload processing inside write_message fails, the
action becomes Failed and the output message size is zeroed; read_message
sets action to Failed on inner failure and zeroes the first message.size
bytes of the caller's message buffer on every post-validation return,
success included. -/
theorem c3_failure_policy (s : HandshakeState) (message : NoiseBuffer)
    (payload : Option NoiseBuffer) :
    ((s.action = Action.WRITE_MESSAGE ∧ message.data_null = false ∧
      payloadDataNull payload = false) →
     (noise_handshakestate_write_message (some s) (some message)
         payload).err ≠ NoiseError.NONE →
     ((noise_handshakestate_write_message (some s) (some message)
         payload).state.map fun t => t.action) = some Action.FAILED ∧
     ((noise_handshakestate_write_message (some s) (some message)
         payload).message.map fun m => m.size) = some 0) ∧
    ((s.action = Action.READ_MESSAGE ∧ message.data_null = false ∧
      payloadDataNull payload = false ∧ message.size ≤ message.max_size) →
     ((noise_handshakestate_read_message (some s) (some message)
          payload).err ≠ NoiseError.NONE →
      ((noise_handshakestate_read_message (some s) (some message)
          payload).state.map fun t => t.action) = some Action.FAILED) ∧
     ((noise_handshakestate_read_message (some s) (some message)
          payload).message.map fun m => m.data.take message.size) =
       some (List.replicate message.size 0)) := by
  constructor
  · rintro ⟨h1, h2, h3⟩ hne
    rcases hw : noise_handshakestate_write_inner s { message with size := 0 }
        payload with ⟨err, s', data', size'⟩
    rw [h2] at hw
    cases err <;>
      simp [noise_handshakestate_write_message, h1, h2, h3, hw] at hne ⊢
  · rintro ⟨h1, h2, h3, h4⟩
    have h4' : ¬(message.max_size < message.size) := Nat.not_lt.mpr h4
    rcases hr : noise_handshakestate_read_inner s message.data message.size
        message.max_size (payload.map fun p => { p with size := 0 })
      with ⟨err, s', data', payload'⟩
    constructor
    · intro hne
      cases err <;>
        simp [noise_handshakestate_read_message, h1, h2, h3, h4', hr]
          at hne ⊢
    · cases err <;>
        simp [noise_handshakestate_read_message, h1, h2, h3, h4', hr,
          take_replicate_append]

/-- Witness for C3: a write into a zero-capacity buffer fails into the
Failed action with size 0, and a truncated read zeroes the buffer and fails
into the Failed action. -/
theorem c3_failure_policy_witness :
    (((noise_handshakestate_write_message (some c3wstate) (some c3wmessage)
        none).state.map fun t => t.action) = some Action.FAILED ∧
     ((noise_handshakestate_write_message (some c3wstate) (some c3wmessage)
        none).message.map fun m => m.size) = some 0) ∧
    (((noise_handshakestate_read_message (some c3rstate) (some c3rmessage)
        none).state.map fun t => t.action) = some Action.FAILED ∧
     ((noise_handshakestate_read_message (some c3rstate) (some c3rmessage)
        none).message.map fun m => m.data.take c3rmessage.size) =
       some (List.replicate c3rmessage.size 0)) := by
  have hw := (c3_failure_policy c3wstate c3wmessage none).1
    ⟨rfl, rfl, rfl⟩ (by decide)
  have hr := (c3_failure_policy c3rstate c3rmessage none).2
    ⟨rfl, rfl, rfl, by decide⟩
  exact ⟨hw, hr.1 (by decide), hr.2⟩

/-- C8: a write_message or read_message call rejected during argument
validation returns InvalidParam, InvalidLength or InvalidState and returns
the state exactly as given — action, ck, h and the token cursor unchanged,
and in particular the action does not become Failed. -/
theorem c8_validation_rejection (state : Option HandshakeState)
    (message payload : Option NoiseBuffer) :
    ((message = none ∨ state = none ∨
      (message.map fun m => m.data_null) = some true ∨
      payloadDataNull payload = true ∨
      (state.map fun s => s.action) ≠ some Action.WRITE_MESSAGE) →
     ((noise_handshakestate_write_message state message payload).err =
         NoiseError.INVALID_PARAM ∨
      (noise_handshakestate_write_message state message payload).err =
         NoiseError.INVALID_STATE) ∧
     (noise_handshakestate_write_message state message payload).state =
       state) ∧
    ((message = none ∨ state = none ∨
      (message.map fun m => m.data_null) = some true ∨
      payloadDataNull payload = true ∨
      (message.map fun m => decide (m.max_size < m.size)) = some true ∨
      (state.map fun s => s.action) ≠ some Action.READ_MESSAGE) →
     ((noise_handshakestate_read_message state message payload).err =
         NoiseError.INVALID_PARAM ∨
      (noise_handshakestate_read_message state message payload).err =
         NoiseError.INVALID_LENGTH ∨
      (noise_handshakestate_read_message state message payload).err =
         NoiseError.INVALID_STATE) ∧
     (noise_handshakestate_read_message state message payload).state =
       state) := by
  constructor
  · intro h
    rcases message with _ | m
    · exact ⟨Or.inl rfl, rfl⟩
    rcases state with _ | s
    · exact ⟨Or.inl rfl, rfl⟩
    by_cases hd : m.data_null
    · simp [noise_handshakestate_write_message, hd]
    by_cases hp : payloadDataNull payload = true
    · simp [noise_handshakestate_write_message, hd, hp]
    have hact : s.action ≠ Action.WRITE_MESSAGE := by
      rcases h with h | h | h | h | h
      · exact absurd h (by simp)
      · exact absurd h (by simp)
      · simp [hd] at h
      · exact absurd h hp
      · simpa using h
    simp [noise_handshakestate_write_message, hd, hp, hact]
  · intro h
    by_cases hp : payloadDataNull payload = true
    · simp [noise_handshakestate_read_message, hp]
    rcases message with _ | m
    · simp [noise_handshakestate_read_message, hp]
    rcases state with _ | s
    · simp [noise_handshakestate_read_message, hp]
    by_cases hd : m.data_null
    · simp [noise_handshakestate_read_message, hd, hp]
    by_cases hsz : m.max_size < m.size
    · simp [noise_handshakestate_read_message, hd, hp, hsz]
    have hact : s.action ≠ Action.READ_MESSAGE := by
      rcases h with h | h | h | h | h | h
      · exact absurd h (by simp)
      · exact absurd h (by simp)
      · simp [hd] at h
      · exact absurd h hp
      · simp [hsz] at h
      · simpa using h
    simp [noise_handshakestate_read_message, hd, hp, hsz, hact]

/-- Witness for C8: a NULL state pointer is rejected with InvalidParam and
nothing is returned in the state slot; a state in the wrong phase is
rejected with InvalidState and returned unchanged. -/
theorem c8_validation_rejection_witness :
    ((noise_handshakestate_write_message none (some c3wmessage) none).err =
        NoiseError.INVALID_PARAM ∨
     (noise_handshakestate_write_message none (some c3wmessage) none).err =
        NoiseError.INVALID_STATE) ∧
    (noise_handshakestate_write_message none (some c3wmessage) none).state =
      none ∧
    ((noise_handshakestate_read_message (some baseState) (some c3rmessage)
        none).err = NoiseError.INVALID_PARAM ∨
     (noise_handshakestate_read_message (some baseState) (some c3rmessage)
        none).err = NoiseError.INVALID_LENGTH ∨
     (noise_handshakestate_read_message (some baseState) (some c3rmessage)
        none).err = NoiseError.INVALID_STATE) ∧
    (noise_handshakestate_read_message (some baseState) (some c3rmessage)
        none).state = some baseState := by
  have hw := (c8_validation_rejection none (some c3wmessage) none).1
    (Or.inr (Or.inl rfl))
  have hr := (c8_validation_rejection (some baseState) (some c3rmessage)
      none).2 (Or.inr (Or.inr (Or.inr (Or.inr (Or.inr (by decide))))))
  exact ⟨hw.1, hw.2, hr.1, hr.2⟩

/-- C2 (amended): with action = ReadMessage and the pending tokens beginning
with e, a message shorter than the ephemeral public key returns
InvalidLength with the transcript hash h unchanged; the truncation check of
each token happens before that token's own h mutation. -/
theorem c2_truncated_read_short_first_token (s : HandshakeState)
    (message : NoiseBuffer) (rest : List Token) (re : DHState)
    (hact : s.action = Action.READ_MESSAGE)
    (htok : s.tokens = Token.E :: rest)
    (hre : s.dh_remote_ephemeral = some re)
    (hnull : message.data_null = false)
    (hsz : message.size ≤ message.max_size)
    (hshort : message.size < re.public_key_len) :
    (noise_handshakestate_read_message (some s) (some message) none).err =
      NoiseError.INVALID_LENGTH ∧
    ((noise_handshakestate_read_message (some s) (some message)
        none).state.map fun t => t.symmetric.h) = some s.symmetric.h := by
  have h4' : ¬(message.max_size < message.size) := Nat.not_lt.mpr hsz
  simp [noise_handshakestate_read_message, payloadDataNull,
        noise_handshakestate_read_inner, noise_handshakestate_read_loop,
        noise_handshakestate_read_token, hact, htok, hre, hnull, h4',
        hshort]

/-- Witness for the amended C2 at a concrete state and short message. -/
theorem c2_truncated_read_short_first_token_witness :
    (noise_handshakestate_read_message (some c2state) (some c2shortMessage)
        none).err = NoiseError.INVALID_LENGTH ∧
    ((noise_handshakestate_read_message (some c2state) (some c2shortMessage)
        none).state.map fun t => t.symmetric.h) =
      some c2state.symmetric.h :=
  c2_truncated_read_short_first_token c2state c2shortMessage
    [Token.S, Token.END] (dhFull 40) rfl rfl rfl rfl (by decide) (by decide)

/-- Counterexample to C2 as stated: a 32-byte message against pending
tokens e, s is shorter than the expected e + s + mac sequence and read
returns InvalidLength, but h has already been mutated by the e token. -/
theorem c2_truncated_read_counterexample :
    (noise_handshakestate_read_message (some c2state) (some c2message)
        none).err = NoiseError.INVALID_LENGTH ∧
    ((noise_handshakestate_read_message (some c2state) (some c2message)
        none).state.map fun t => t.symmetric.h) ≠
      some c2state.symmetric.h := by
  decide

end NoiseC
